import Mathlib

/-!
Shallow embedding of the deployment orchestration and readiness-polling
engine of this repository, and of its report aggregators:

* `src/deploy_aso_stack_with_memory.py` — class `ASODeployerWithEnhancedMemory`
  (namespace `ASODeploy` below),
* `src/apps/cert-manager/validate-cert-manager.py` — class `CertManagerValidator`
  (namespace `CertManager`),
* `src/istio_test_suite.py` — class `IstioTestSuite` (namespace `IstioSuite`).

External effects (subprocess calls to kubectl/az, the wall clock, file
reads) are modelled as explicit environments passed to the functions;
time is idealised so that the k-th iteration of a polling loop with a
30-second sleep observes elapsed time `30 * k`.  Printed output that the
control flow depends on, and the status observations the spec calls the
"sink", are modelled as explicit event logs threaded through the state.
-/

namespace ASODeploy

/-- One entry of a Kubernetes `status.conditions` list as inspected by
`check_resource_status`: the code reads `condition.get('type')`,
`condition.get('status')` and `condition.get('message', '')`.  A missing
field behaves like a value equal to no inspected constant; we model it as
`""`. -/
structure Condition where
  ctype : String
  status : String
  message : String
deriving DecidableEq, Repr

/-- Outcome of the `kubectl get <type> <name> -n <ns> -o yaml` call inside
`check_resource_status`: success with the parsed `status.conditions` list,
a non-zero return code with its stderr, or a raised exception. -/
inductive GetResult where
  | success (conditions : List Condition)
  | notFound (stderr : String)
  | exc (msg : String)
deriving DecidableEq, Repr

/-- `ASODeployerWithEnhancedMemory.check_resource_status` (lines 88–106):
scan the conditions for the first one with type `Ready`; if found, ready
iff its status is `True`, message taken from the condition; otherwise the
fixed fallback messages of the three non-success paths. -/
def check_resource_status (r : GetResult) : Bool × String :=
  match r with
  | .success conditions =>
    match conditions.find? (fun c => c.ctype == "Ready") with
    | some c => (c.status == "True", c.message)
    | none => (false, "No Ready condition found")
  | .notFound stderr => (false, "Resource not found: " ++ stderr)
  | .exc m => (false, "Error checking status: " ++ m)

/-- One entry produced by `get_resource_details`: the kind (lower-cased),
name and namespace of a queryable sub-resource of a descriptor file. -/
structure ResourceRef where
  rtype : String
  name : String
  ns : String
deriving DecidableEq, Repr

/-- Events emitted by the monitoring loop (its prints, in order):
`statusObs` is the debounced "⏳ name: message" observation,
`stillProvisioning` the periodic heartbeat, `readyMsg` the success line,
`warnNoDetails` the degraded-introspection warning, `timeoutMsg` the
final timeout line. -/
inductive MEvent where
  | statusObs (s : String)
  | stillProvisioning (elapsed : Nat)
  | readyMsg (name : String) (dur : Nat)
  | warnNoDetails (file : String)
  | timeoutMsg (rt : String) (t : Nat)
deriving DecidableEq, Repr

/-- Mutable state of the monitoring loop: the `last_status` debounce
variable, the emitted events, and the number of status queries issued. -/
structure ScanState where
  lastStatus : String
  log : List MEvent
  queries : Nat
deriving DecidableEq, Repr

/-- The value `monitor_with_memory_updates` produces, with the loop-local
state made explicit (the Python function returns only the boolean; the
rest is its printed output, elapsed iterations and issued queries). -/
structure MonitorResult where
  ready : Bool
  ticks : Nat
  queries : Nat
  log : List MEvent
  lastStatus : String
deriving DecidableEq, Repr

/-- Environment of one poll: the outcome of the status query for
sub-resource index `i` on tick `k` is `env k i`. -/
def MonitorEnv : Type := Nat → Nat → GetResult

/-- The formatted status string `f"{rd['name']}: {message}"` (line 197). -/
def fmtStatus (rd : ResourceRef) (message : String) : String :=
  rd.name ++ ": " ++ message

/-- The debounce of lines 197–200: emit the formatted status as an
observation only when it differs from `last_status`, and remember it. -/
def debounceStep (st : ScanState) (current : String) : ScanState :=
  if current ≠ st.lastStatus then
    { st with log := st.log ++ [.statusObs current], lastStatus := current }
  else st

/-- The inner `for rd in resource_details` loop of one tick
(lines 180–200), with `i` the position of the head of the remaining list
within the full sub-resource list (so the status query for it is `q i`):
query each sub-resource in order; on the first ready one, return early
(`.inr` carries its name); otherwise debounce the formatted status
against `last_status` and continue. -/
def scanRds (q : Nat → GetResult) :
    Nat → List ResourceRef → ScanState → ScanState ⊕ (String × ScanState)
  | _, [], st => .inl st
  | i, rd :: rest, st =>
    let res := check_resource_status (q i)
    let st1 : ScanState := { st with queries := st.queries + 1 }
    if res.1 then
      .inr (rd.name, st1)
    else
      scanRds q (i + 1) rest (debounceStep st1 (fmtStatus rd res.2))

/-- The state `scanRds` ends in on a tick where no queried sub-resource
is ready (the early-exit branch never taken): same debounced logging and
query counting, without the sum type.  Used only to phrase lemmas about
such ticks. -/
def scanNR (q : Nat → GetResult) : Nat → List ResourceRef → ScanState → ScanState
  | _, [], st => st
  | i, rd :: rest, st =>
    let res := check_resource_status (q i)
    let st1 : ScanState := { st with queries := st.queries + 1 }
    scanNR q (i + 1) rest (debounceStep st1 (fmtStatus rd res.2))

/-- Ceiling division by the 30-second tick interval: the number of
iterations of `while time.time() - monitor_start < expected_time` when
iteration `k` starts at elapsed time `30 * k`. -/
def numTicks (t : Nat) : Nat := (t + 29) / 30

/-- The periodic heartbeat print of lines 202–203, at elapsed time
`30 * k` (in the idealised timing the float condition
`elapsed % 60 == 0` holds exactly on even ticks). -/
def provisioningStep (st : ScanState) (k : Nat) : ScanState :=
  if 30 * k > 120 ∧ (30 * k) % 60 = 0 then
    { st with log := st.log ++ [.stillProvisioning (30 * k)] }
  else st

/-- The monitoring while loop (lines 176–205), by recursion on the number
of remaining ticks; `k` is the index of the current tick (elapsed time
`30 * k`), and `rt`/`t` are the resource type and timeout used by the
timeout message.  When the budget is exhausted the loop falls through to
the timeout path (lines 207–214) and returns `False`. -/
def monitorLoop (env : MonitorEnv) (rds : List ResourceRef)
    (rt : String) (t : Nat) : Nat → Nat → ScanState → MonitorResult
  | 0, k, st =>
    { ready := false, ticks := k, queries := st.queries,
      log := st.log ++ [.timeoutMsg rt t], lastStatus := st.lastStatus }
  | n + 1, k, st =>
    match scanRds (env k) 0 rds st with
    | .inr (name, st1) =>
      { ready := true, ticks := k + 1, queries := st1.queries,
        log := st1.log ++ [.readyMsg name (30 * k)], lastStatus := st1.lastStatus }
    | .inl st1 =>
      monitorLoop env rds rt t n (k + 1) (provisioningStep st1 k)

/-- The body of `monitor_with_memory_updates` after the timeout has been
resolved to `t` and `get_resource_details` has produced `rds` (lines
166–214): an empty sub-resource list short-circuits to success with only
a warning printed; otherwise run the polling loop for `numTicks t`
ticks. -/
def monitorPoll (file : String) (rt : String) (t : Nat)
    (rds : List ResourceRef) (env : MonitorEnv) : MonitorResult :=
  if rds.isEmpty then
    { ready := true, ticks := 0, queries := 0,
      log := [.warnNoDetails file], lastStatus := "" }
  else
    monitorLoop env rds rt t (numTicks t) 0
      { lastStatus := "", log := [], queries := 0 }

/-- Python's `str.replace(pat, rep)` (all occurrences, left to right,
non-overlapping) on character lists, by structural recursion on a fuel
that the wrapper instantiates with the length of the subject (an upper
bound on the number of recursive steps). -/
def replaceListAux (pat rep : List Char) : Nat → List Char → List Char
  | _, [] => []
  | 0, s => s
  | fuel + 1, c :: rest =>
    if !pat.isEmpty && pat.isPrefixOf (c :: rest) then
      rep ++ replaceListAux pat rep fuel ((c :: rest).drop pat.length)
    else
      c :: replaceListAux pat rep fuel rest

/-- `resource_file.replace('.yaml', '')` (lines 113, 153). -/
def resourceType (file : String) : String :=
  ⟨replaceListAux ".yaml".toList [] file.toList.length file.toList⟩

/-- Timeout resolution of `monitor_with_memory_updates` (lines 156–161):
default 300 s, overridden to 1800 s for `cluster` and 600 s for
`extension`. -/
def expectedTime (rt : String) : Nat :=
  if rt == "cluster" then 1800
  else if rt == "extension" then 600
  else 300

/-- `monitor_with_memory_updates resource_file` (lines 148–214), with the
file-to-sub-resources map `detailsOf` (the outcome of
`get_resource_details`) and the status-query environment explicit. -/
def monitor_with_memory_updates (file : String)
    (detailsOf : String → List ResourceRef) (env : MonitorEnv) : MonitorResult :=
  let rt := resourceType file
  monitorPoll file rt (expectedTime rt) (detailsOf file) env

/-- One entry of `self.deployment_results` (lines 259–269). -/
structure DeployEntry where
  resource : String
  deployed : Bool
  monitored : Bool
deriving DecidableEq, Repr

/-- Environment of a whole deployment run: the outcome of
`kubectl apply -f <file>` per resource file, the sub-resources
`get_resource_details` extracts from each file, and the status-query
outcomes of the monitoring loop per file. -/
structure DeployEnv where
  applyOk : String → Bool
  detailsOf : String → List ResourceRef
  statusEnv : String → MonitorEnv

/-- The fixed `self.resource_order` field (lines 23–31). -/
def resource_order : List String :=
  ["resourcegroup.yaml", "identity.yaml", "roleassignment.yaml",
   "cluster.yaml", "federated.yaml", "extension.yaml", "fluxconfiguration.yaml"]

/-- The files for which `run_memory_guided_deployment` invokes the
monitor (line 253). -/
def monitoredFiles : List String := ["cluster.yaml", "extension.yaml"]

/-- `deploy_resource_with_memory` (lines 108–146): the memory query and
stores are no-ops for control flow; the returned boolean is exactly
whether `kubectl apply` exited with code 0. -/
def deploy_resource_with_memory (env : DeployEnv) (file : String) : Bool :=
  env.applyOk file

/-- The body of the `for resource_file in self.resource_order` loop of
`run_memory_guided_deployment` (lines 244–272): on apply success, run the
monitor for the two long-provisioning files and record its boolean,
otherwise record `monitored := true`; on apply failure record
`{deployed := false, monitored := false}` and continue. -/
def deployStep (env : DeployEnv) (file : String) : DeployEntry :=
  if deploy_resource_with_memory env file then
    let m :=
      if monitoredFiles.contains file then
        (monitor_with_memory_updates file env.detailsOf (env.statusEnv file)).ready
      else true
    { resource := file, deployed := true, monitored := m }
  else
    { resource := file, deployed := false, monitored := false }

/-- `run_memory_guided_deployment` (lines 236–278), generalised over the
resource order the loop iterates (the code reads it from the instance
field `resource_order`): the result log, and the returned overall flag
`success_count == len(self.resource_order)`. -/
def runDeployment (order : List String) (env : DeployEnv) :
    List DeployEntry × Bool :=
  let results := order.map (deployStep env)
  (results, results.countP (·.deployed) == order.length)

/-- `run_memory_guided_deployment` on the actual resource order. -/
def run_memory_guided_deployment (env : DeployEnv) : List DeployEntry × Bool :=
  runDeployment resource_order env

end ASODeploy

namespace CertManager

/-- Whether `pat` occurs as a contiguous run inside `l`. -/
def listInfix (pat : List Char) : List Char → Bool
  | [] => pat.isEmpty
  | c :: rest => pat.isPrefixOf (c :: rest) || listInfix pat rest

/-- Python's `pat in s` substring test. -/
def strContains (s pat : String) : Bool :=
  listInfix pat.toList s.toList

/-- Python's `s.strip()` (drop leading and trailing whitespace). -/
def pyStrip (s : String) : String :=
  ⟨((s.toList.dropWhile Char.isWhitespace).reverse.dropWhile
      Char.isWhitespace).reverse⟩

/-- The expected workload-identity client id (`self.client_id`). -/
def client_id : String := "1317ba0a-60d3-4f05-b41e-483ed1d6acb3"

/-- `required_crds` of `check_crds_installed` (lines 83–90). -/
def required_crds : List String :=
  ["certificates.cert-manager.io", "certificaterequests.cert-manager.io",
   "issuers.cert-manager.io", "clusterissuers.cert-manager.io",
   "challenges.acme.cert-manager.io", "orders.acme.cert-manager.io"]

/-- `expected_pods` of `check_cert_manager_pods` (line 56). -/
def expected_pods : List String :=
  ["cert-manager", "cert-manager-webhook", "cert-manager-cainjector"]

/-- Environment of one validator run: what each check observes.  A flag
`…Ok := false` covers both a failed subprocess call and an output the
code cannot parse: in either case the Python check prints an error and
returns `False` without touching `self.results`, so the two are
observationally identical. -/
structure CertEnv where
  crdsOk : Bool
  crdsOut : String
  podsOk : Bool
  pods : List (String × String)
  saOk : Bool
  saClientId : Option String
  saUseLabel : Option String
  issuersOk : Bool
  issuers : List (String × List ASODeploy.Condition)
  dnsOk : Bool
deriving DecidableEq, Repr

/-- `check_crds_installed` (lines 79–109).  Each check is modelled as the
pair (returned boolean, entries appended to `self.results`): the failure
exits before `self.results.append` produce an empty second component. -/
def check_crds_installed (env : CertEnv) : Bool × List (String × Bool) :=
  if !env.crdsOk then (false, [])
  else
    let missing := required_crds.filter (fun crd => !strContains env.crdsOut crd)
    let success := missing.isEmpty
    (success, [("CRDs Installed", success)])

/-- `check_cert_manager_pods` (lines 44–77): nested loop over pods and
expected names, collecting one entry per (pod, expected substring) pair
whose pod is `Running`; success iff at least 3 entries collected. -/
def check_cert_manager_pods (env : CertEnv) : Bool × List (String × Bool) :=
  if !env.podsOk then (false, [])
  else
    let running := env.pods.flatMap (fun p =>
      expected_pods.filter (fun e => strContains p.1 e && p.2 == "Running"))
    let success := decide (running.length ≥ 3)
    (success, [("Cert-Manager Pods", success)])

/-- `check_workload_identity` (lines 149–185): a client-id mismatch or a
missing `azure.workload.identity/use: "true"` label returns `False`
before the single `self.results.append` site, which only ever records a
passing entry. -/
def check_workload_identity (env : CertEnv) : Bool × List (String × Bool) :=
  if !env.saOk then (false, [])
  else if env.saClientId == some client_id then
    if env.saUseLabel == some "true" then
      (true, [("Workload Identity Config", true)])
    else (false, [])
  else (false, [])

/-- Readiness of one ClusterIssuer: some condition of type `Ready` with
status `True` (lines 129–133). -/
def issuerReady (conds : List ASODeploy.Condition) : Bool :=
  conds.any (fun c => c.ctype == "Ready" && c.status == "True")

/-- `check_clusterissuers` (lines 111–147): success iff at least 2
issuers are ready. -/
def check_clusterissuers (env : CertEnv) : Bool × List (String × Bool) :=
  if !env.issuersOk then (false, [])
  else
    let ready := env.issuers.filter (fun i => issuerReady i.2)
    let success := decide (ready.length ≥ 2)
    (success, [("ClusterIssuers Ready", success)])

/-- `check_azure_permissions` (lines 187–218): the success path always
appends a passing entry; every failure path returns `False` with no
entry. -/
def check_azure_permissions (env : CertEnv) : Bool × List (String × Bool) :=
  if env.dnsOk then (true, [("Azure DNS Permissions", true)])
  else (false, [])

/-- The `self.results` list after `run_all_validations` (lines 319–341)
has run its five checks in order, on an exception-free run. -/
def run_all_validations (env : CertEnv) : List (String × Bool) :=
  (check_crds_installed env).2 ++ (check_cert_manager_pods env).2 ++
    (check_workload_identity env).2 ++ (check_clusterissuers env).2 ++
    (check_azure_permissions env).2

/-- `generate_summary` (lines 289–317): passes iff `passed == total`. -/
def generate_summary (results : List (String × Bool)) : Bool :=
  let passed := results.countP (·.2)
  let total := results.length
  passed == total

/-- The `__main__` block (lines 343–346): exit code 0 iff the summary
passed. -/
def validatorExitCode (env : CertEnv) : Nat :=
  if generate_summary (run_all_validations env) then 0 else 1

/-- What one tick of the certificate-issuance poll observes: the
jsonpath status query (command success and stdout) and the
`kubectl describe` output used by the error check. -/
structure CertTick where
  statusOk : Bool
  statusOut : String
  descOk : Bool
  descOut : String
deriving DecidableEq, Repr

/-- The loop condition query of `test_certificate_issuance` (line 261):
the certificate is ready when the command succeeded and the stripped
stdout equals `True`. -/
def certReadyTick (t : CertTick) : Bool :=
  t.statusOk && (pyStrip t.statusOut == "True")

/-- The error check of `test_certificate_issuance` (line 274): the
describe command succeeded and its output contains `Error`. -/
def certErrTick (t : CertTick) : Bool :=
  t.descOk && strContains t.descOut "Error"

/-- Number of iterations of `while time.time() - start_time <
timeout_seconds` with a 10-second sleep, iteration `k` starting at
elapsed time `10 * k`. -/
def certTicks (timeout : Nat) : Nat := (timeout + 9) / 10

/-- The polling loop of `test_certificate_issuance` (lines 254–287):
on a ready status return `True`; on an `Error` marker in the describe
output break, falling through to the timeout path that returns `False`;
when the budget is exhausted return `False`.  Result is the returned
boolean and the number of iterations executed. -/
def certPollLoop (env : Nat → CertTick) : Nat → Nat → Bool × Nat
  | 0, k => (false, k)
  | n + 1, k =>
    if certReadyTick (env k) then (true, k + 1)
    else if certErrTick (env k) then (false, k + 1)
    else certPollLoop env n (k + 1)

/-- `test_certificate_issuance` after a successful apply of the test
certificate, with timeout budget `timeout` (default 300). -/
def test_certificate_issuance (timeout : Nat) (env : Nat → CertTick) :
    Bool × Nat :=
  certPollLoop env (certTicks timeout) 0

end CertManager

namespace IstioSuite

/-- One entry of `self.test_results` as `generate_report` reads it:
only the name and the `passed` flag matter for the verdict. -/
structure TestResult where
  test : String
  passed : Bool
deriving DecidableEq, Repr

/-- One entry of `self.security_findings`: only the severity matters for
the verdict. -/
structure Finding where
  severity : String
  ftype : String
deriving DecidableEq, Repr

/-- `pass_rate` of `generate_report` (line 600), in exact rational
arithmetic: `passed / total * 100` when `total > 0`, else `0`. -/
def pass_rate (results : List TestResult) : ℚ :=
  if results.length > 0 then
    ((results.countP (·.passed) : ℚ) / (results.length : ℚ)) * 100
  else 0

/-- `critical_findings` of `generate_report` (line 603). -/
def critical_findings (findings : List Finding) : List Finding :=
  findings.filter (fun f => f.severity == "CRITICAL")

/-- The `overall_status` field of the executive summary (line 616):
`PASS` iff the pass rate reaches 80 and there is no CRITICAL finding. -/
def overall_status (results : List TestResult) (findings : List Finding) :
    String :=
  if pass_rate results ≥ 80 ∧ (critical_findings findings).length = 0 then
    "PASS"
  else "FAIL"

end IstioSuite

/-! Concrete fixtures used by witnesses and counterexamples. -/

namespace ASODeploy

/-- A single queryable sub-resource of the cluster descriptor. -/
def rdCluster : ResourceRef :=
  { rtype := "managedcluster", name := "uk8s", ns := "azure-system" }

/-- Two sub-resources extracted from one descriptor file. -/
def rdAlpha : ResourceRef :=
  { rtype := "userassignedidentity", name := "alpha", ns := "azure-system" }

/-- Second sub-resource of the same descriptor file. -/
def rdBeta : ResourceRef :=
  { rtype := "federatedidentitycredential", name := "beta", ns := "azure-system" }

/-- Third sub-resource, for the early-exit witness. -/
def rdGamma : ResourceRef :=
  { rtype := "roleassignment", name := "gamma", ns := "azure-system" }

/-- Status queries that always answer with an empty condition list: the
resource never reports readiness. -/
def envNeverReady : MonitorEnv := fun _ _ => .success []

/-- Status queries that on every tick surface a condition whose text is an
explicit unrecoverable-failure signal. -/
def envErrText : MonitorEnv := fun _ _ =>
  .success [{ ctype := "Ready", status := "False",
              message := "Provisioning failed: unrecoverable error" }]

/-- Status queries that report a Ready/True condition immediately. -/
def envReadyNow : MonitorEnv := fun _ _ =>
  .success [{ ctype := "Ready", status := "True",
              message := "Provisioning succeeded" }]

/-- Ready/True reported only on tick 1 by sub-resource 1; every other
query sees no conditions. -/
def envReadyAt11 : MonitorEnv := fun k j =>
  if k == 1 && j == 1 then
    .success [{ ctype := "Ready", status := "True",
                message := "Provisioning succeeded" }]
  else .success []

/-- Deployment environment whose descriptor files yield no queryable
sub-resources; all applies succeed. -/
def deployEnvDegraded : DeployEnv :=
  { applyOk := fun _ => true, detailsOf := fun _ => [],
    statusEnv := fun _ => envNeverReady }

/-- Deployment environment where each monitored resource reports
Ready/True on the first tick; all applies succeed. -/
def deployEnvConfirmed : DeployEnv :=
  { applyOk := fun _ => true, detailsOf := fun _ => [rdCluster],
    statusEnv := fun _ => envReadyNow }

/-- Deployment environment where exactly the apply of the fifth resource
file of `resource_order` (`federated.yaml`) fails. -/
def deployEnvPos5Fails : DeployEnv :=
  { applyOk := fun f => !(f == "federated.yaml"),
    detailsOf := fun _ => [rdCluster], statusEnv := fun _ => envReadyNow }

end ASODeploy

namespace CertManager

/-- A poll tick on which the certificate is neither ready nor in error. -/
def certTickQuiet : CertTick :=
  { statusOk := true, statusOut := "False", descOk := true,
    descOut := "Normal Issuing waiting for DNS propagation" }

/-- A poll tick whose describe output contains the `Error` marker. -/
def certTickError : CertTick :=
  { statusOk := true, statusOut := "False", descOk := true,
    descOut := "Warning Error acme challenge rejected" }

/-- The certificate never becomes ready; tick 2 surfaces the error. -/
def certEnvErrAt2 : Nat → CertTick :=
  fun k => if k == 2 then certTickError else certTickQuiet

/-- Validator observations on which every check succeeds except that the
service-account client id differs from the expected one: the
workload-identity check fails and returns early, so nothing is appended
to the results for it. -/
def certEnvBadClientId : CertEnv :=
  { crdsOk := true,
    crdsOut := "certificates.cert-manager.io certificaterequests.cert-manager.io issuers.cert-manager.io clusterissuers.cert-manager.io challenges.acme.cert-manager.io orders.acme.cert-manager.io",
    podsOk := true,
    pods := [("cert-manager-5f9d8", "Running"),
             ("cert-manager-webhook-abc", "Running"),
             ("cert-manager-cainjector-def", "Running")],
    saOk := true,
    saClientId := some "00000000-0000-0000-0000-000000000000",
    saUseLabel := some "true",
    issuersOk := true,
    issuers :=
      [("letsencrypt-staging-dns01",
        [{ ctype := "Ready", status := "True", message := "" }]),
       ("letsencrypt-production-dns01",
        [{ ctype := "Ready", status := "True", message := "" }])],
    dnsOk := true }

end CertManager

namespace IstioSuite

/-- Five outcomes of which four passed. -/
def results5 : List TestResult :=
  [{ test := "control_plane_health", passed := true },
   { test := "sidecar_injection_demo", passed := true },
   { test := "gateway_routing_demo", passed := true },
   { test := "mtls_configuration", passed := true },
   { test := "performance_baseline", passed := false }]

/-- One disqualifying (CRITICAL) finding. -/
def findingCrit : Finding :=
  { severity := "CRITICAL", ftype := "missing_authorization_policy" }

end IstioSuite

/-! Lemmas about the readiness-polling loop. -/

namespace ASODeploy

/-- Iteration `k` of the monitoring while loop runs iff `30 * k < t`,
i.e. iff `k < numTicks t`. -/
theorem numTicks_spec (t k : Nat) : k < numTicks t ↔ 30 * k < t := by
  unfold numTicks
  rw [Nat.lt_iff_add_one_le, Nat.le_div_iff_mul_le (by norm_num : 0 < 30)]
  omega

theorem debounceStep_queries (st : ScanState) (current : String) :
    (debounceStep st current).queries = st.queries := by
  unfold debounceStep; split <;> rfl

theorem debounceStep_lastStatus (st : ScanState) (current : String) :
    (debounceStep st current).lastStatus = current := by
  unfold debounceStep
  split
  · rfl
  · rename_i h
    exact (not_ne_iff.mp h).symm

theorem provisioningStep_queries (st : ScanState) (k : Nat) :
    (provisioningStep st k).queries = st.queries := by
  unfold provisioningStep; split <;> rfl

theorem provisioningStep_lastStatus (st : ScanState) (k : Nat) :
    (provisioningStep st k).lastStatus = st.lastStatus := by
  unfold provisioningStep; split <;> rfl

/-- On a tick where no queried sub-resource is ready, the inner scan
takes no early exit and ends in the `scanNR` state. -/
theorem scanRds_eq_scanNR (q : Nat → GetResult) :
    ∀ (rds : List ResourceRef) (i : Nat) (st : ScanState),
      (∀ j, j < rds.length → (check_resource_status (q (i + j))).1 = false) →
      scanRds q i rds st = .inl (scanNR q i rds st) := by
  intro rds
  induction rds with
  | nil => intro i st _; rfl
  | cons rd rest ih =>
    intro i st h
    have h0 : (check_resource_status (q i)).1 = false := by
      simpa using h 0 (by simp)
    have hrest : ∀ j, j < rest.length →
        (check_resource_status (q (i + 1 + j))).1 = false := by
      intro j hj
      have hx := h (j + 1) (by simpa using Nat.succ_lt_succ hj)
      rw [show i + (j + 1) = i + 1 + j by omega] at hx
      exact hx
    simp only [scanRds, scanNR, h0]
    exact ih (i + 1) _ hrest

/-- A full not-ready scan issues exactly one status query per
sub-resource. -/
theorem scanNR_queries (q : Nat → GetResult) :
    ∀ (rds : List ResourceRef) (i : Nat) (st : ScanState),
      (scanNR q i rds st).queries = st.queries + rds.length := by
  intro rds
  induction rds with
  | nil => intro i st; rfl
  | cons rd rest ih =>
    intro i st
    simp only [scanNR]
    rw [ih, debounceStep_queries]
    simp only [List.length_cons]
    omega

/-- Single-step unfolding of `scanNR`. -/
theorem scanNR_cons (q : Nat → GetResult) (i : Nat) (rd : ResourceRef)
    (rest : List ResourceRef) (st : ScanState) :
    scanNR q i (rd :: rest) st =
      scanNR q (i + 1) rest
        (debounceStep { st with queries := st.queries + 1 }
          (fmtStatus rd (check_resource_status (q i)).2)) := rfl

/-- After a full not-ready scan of a nonempty sub-resource list,
`last_status` holds the formatted status of the last sub-resource. -/
theorem scanNR_lastStatus (q : Nat → GetResult) :
    ∀ (rds : List ResourceRef) (hne : rds ≠ []) (i : Nat) (st : ScanState),
      (scanNR q i rds st).lastStatus =
        fmtStatus (rds.getLast hne)
          (check_resource_status (q (i + (rds.length - 1)))).2 := by
  intro rds
  induction rds with
  | nil => intro hne; exact absurd rfl hne
  | cons rd rest ih =>
    intro hne i st
    cases rest with
    | nil =>
      simp only [scanNR, debounceStep_lastStatus, List.getLast_singleton,
        List.length_cons, List.length_nil]
      norm_num
    | cons r2 r3 =>
      rw [scanNR_cons, ih (by simp) (i + 1)]
      have harith : i + 1 + ((r2 :: r3).length - 1) =
          i + ((rd :: r2 :: r3).length - 1) := by
        simp only [List.length_cons]
        omega
      rw [harith, List.getLast_cons_cons]

/-- One not-ready iteration of the while loop, as a step equation. -/
theorem monitorLoop_succ_notReady (env : MonitorEnv) (rds : List ResourceRef)
    (rt : String) (t n k : Nat) (st : ScanState)
    (h : ∀ j, j < rds.length → (check_resource_status (env k j)).1 = false) :
    monitorLoop env rds rt t (n + 1) k st =
      monitorLoop env rds rt t n (k + 1)
        (provisioningStep (scanNR (env k) 0 rds st) k) := by
  have hscan := scanRds_eq_scanNR (env k) rds 0 st (by simpa using h)
  rw [monitorLoop, hscan]

/-- An iteration whose scan exits early, as a step equation. -/
theorem monitorLoop_succ_ready (env : MonitorEnv) (rds : List ResourceRef)
    (rt : String) (t n k : Nat) (st st1 : ScanState) (name : String)
    (h : scanRds (env k) 0 rds st = .inr (name, st1)) :
    monitorLoop env rds rt t (n + 1) k st =
      { ready := true, ticks := k + 1, queries := st1.queries,
        log := st1.log ++ [.readyMsg name (30 * k)],
        lastStatus := st1.lastStatus } := by
  rw [monitorLoop, h]

/-- If no status query ever reports readiness, the loop consumes its
whole budget of `n` ticks, returns not-ready, and issues one query per
sub-resource per tick. -/
theorem monitorLoop_notReady (env : MonitorEnv) (rds : List ResourceRef)
    (rt : String) (t : Nat)
    (h : ∀ k j, j < rds.length → (check_resource_status (env k j)).1 = false) :
    ∀ (n k : Nat) (st : ScanState),
      (monitorLoop env rds rt t n k st).ready = false ∧
      (monitorLoop env rds rt t n k st).ticks = k + n ∧
      (monitorLoop env rds rt t n k st).queries =
        st.queries + n * rds.length := by
  intro n
  induction n with
  | zero => intro k st; exact ⟨rfl, by simp [monitorLoop], by simp [monitorLoop]⟩
  | succ m ih =>
    intro k st
    rw [monitorLoop_succ_notReady env rds rt t m k st (h k)]
    obtain ⟨h1, h2, h3⟩ :=
      ih (k + 1) (provisioningStep (scanNR (env k) 0 rds st) k)
    refine ⟨h1, ?_, ?_⟩
    · rw [h2]; omega
    · rw [h3, provisioningStep_queries, scanNR_queries]; ring

/-- If no status query ever reports readiness, after `n + 1` ticks the
loop's `last_status` holds the formatted status of the last sub-resource
as queried on the final tick. -/
theorem monitorLoop_notReady_lastStatus (env : MonitorEnv)
    (rds : List ResourceRef) (rt : String) (t : Nat) (hne : rds ≠ [])
    (h : ∀ k j, j < rds.length → (check_resource_status (env k j)).1 = false) :
    ∀ (n k : Nat) (st : ScanState),
      (monitorLoop env rds rt t (n + 1) k st).lastStatus =
        fmtStatus (rds.getLast hne)
          (check_resource_status (env (k + n) (rds.length - 1))).2 := by
  intro n
  induction n with
  | zero =>
    intro k st
    rw [monitorLoop_succ_notReady env rds rt t 0 k st (h k), monitorLoop]
    simp only [provisioningStep_lastStatus]
    rw [scanNR_lastStatus (env k) rds hne 0 st]
    simp
  | succ m ih =>
    intro k st
    rw [monitorLoop_succ_notReady env rds rt t (m + 1) k st (h k)]
    rw [ih (k + 1)]
    have harith : k + 1 + m = k + (m + 1) := by omega
    rw [harith]

end ASODeploy

namespace ASODeploy

/-- C2: a poll with timeout budget `t` and 30-second ticks that never
observes a ready condition terminates after exactly `⌈t / 30⌉` ticks
(`numTicks t`), issues one status query per sub-resource per tick, and
ends not-ready with `last_status` holding the final formatted status
message. -/
theorem poll_timeout_exact_ticks (f rt : String) (t : Nat)
    (rds : List ResourceRef) (env : MonitorEnv)
    (hne : rds ≠ []) (ht : 0 < t)
    (h : ∀ k j, j < rds.length → (check_resource_status (env k j)).1 = false) :
    (monitorPoll f rt t rds env).ready = false ∧
    (monitorPoll f rt t rds env).ticks = numTicks t ∧
    (monitorPoll f rt t rds env).queries = numTicks t * rds.length ∧
    (monitorPoll f rt t rds env).lastStatus =
      fmtStatus (rds.getLast hne)
        (check_resource_status (env (numTicks t - 1) (rds.length - 1))).2 := by
  have hpos : 0 < numTicks t := (numTicks_spec t 0).mpr (by omega)
  have hempty : rds.isEmpty = false := by
    cases rds with
    | nil => exact absurd rfl hne
    | cons a l => rfl
  unfold monitorPoll
  simp only [hempty, Bool.false_eq_true, if_false]
  obtain ⟨h1, h2, h3⟩ := monitorLoop_notReady env rds rt t h (numTicks t) 0
    { lastStatus := "", log := [], queries := 0 }
  refine ⟨h1, by rw [h2]; omega, by rw [h3]; simp, ?_⟩
  obtain ⟨m, hm⟩ : ∃ m, numTicks t = m + 1 := ⟨numTicks t - 1, by omega⟩
  rw [hm]
  rw [monitorLoop_notReady_lastStatus env rds rt t hne h m 0]
  simp only [Nat.zero_add]
  congr 2

/-- Witness for C2 at the spec's scenario: the cluster-like kind
resolves to the 1800-second override, and with one queryable
sub-resource that never reports readiness the poll performs exactly 60
ticks and 60 status queries before returning not-ready. -/
theorem poll_timeout_exact_ticks_witness :
    expectedTime (resourceType "cluster.yaml") = 1800 ∧
    (monitorPoll "cluster.yaml" "cluster" 1800 [rdCluster] envNeverReady).ready
      = false ∧
    (monitorPoll "cluster.yaml" "cluster" 1800 [rdCluster] envNeverReady).ticks
      = 60 ∧
    (monitorPoll "cluster.yaml" "cluster" 1800 [rdCluster] envNeverReady).queries
      = 60 := by
  have h := poll_timeout_exact_ticks "cluster.yaml" "cluster" 1800 [rdCluster]
    envNeverReady (by decide) (by decide) (fun k j _ => rfl)
  refine ⟨by decide, h.1, ?_, ?_⟩
  · rw [h.2.1]; decide
  · rw [h.2.2.1]; decide

/-- The inner scan exits early at the first ready sub-resource, having
queried only the sub-resources up to and including it. -/
theorem scanRds_ready_at (q : Nat → GetResult) :
    ∀ (rds : List ResourceRef) (i0 i : Nat) (st : ScanState)
      (hi : i < rds.length),
      (∀ j, j < i → (check_resource_status (q (i0 + j))).1 = false) →
      (check_resource_status (q (i0 + i))).1 = true →
      ∃ st2, scanRds q i0 rds st = .inr ((rds.get ⟨i, hi⟩).name, st2) ∧
        st2.queries = st.queries + i + 1 := by
  intro rds
  induction rds with
  | nil => intro i0 i st hi; exact absurd hi (by simp)
  | cons rd rest ih =>
    intro i0 i st hi hpre hready
    cases i with
    | zero =>
      have h0 : (check_resource_status (q i0)).1 = true := by simpa using hready
      refine ⟨{ st with queries := st.queries + 1 }, ?_, rfl⟩
      simp only [scanRds, h0, if_true]
      rfl
    | succ j =>
      have h0 : (check_resource_status (q i0)).1 = false := by
        simpa using hpre 0 (Nat.succ_pos j)
      have hpre2 : ∀ l, l < j →
          (check_resource_status (q (i0 + 1 + l))).1 = false := by
        intro l hl
        have hx := hpre (l + 1) (by omega)
        rw [show i0 + (l + 1) = i0 + 1 + l by omega] at hx
        exact hx
      have hready2 : (check_resource_status (q (i0 + 1 + j))).1 = true := by
        rw [show i0 + 1 + j = i0 + (j + 1) by omega]
        exact hready
      obtain ⟨st2, hs, hq⟩ := ih (i0 + 1) j
        (debounceStep { st with queries := st.queries + 1 }
          (fmtStatus rd (check_resource_status (q i0)).2))
        (by simpa using hi) hpre2 hready2
      refine ⟨st2, ?_, ?_⟩
      · simp only [scanRds, h0]
        exact hs
      · rw [hq, debounceStep_queries]
        show st.queries + 1 + j + 1 = st.queries + (j + 1) + 1
        omega

/-- If all queries before tick `k + jr` report not-ready, on tick
`k + jr` the sub-resources before index `i` report not-ready and index
`i` reports ready, then the loop returns ready after `jr + 1` executed
ticks, with queries only up to index `i` on the final tick. -/
theorem monitorLoop_ready_at (env : MonitorEnv) (rds : List ResourceRef)
    (rt : String) (t : Nat) (i : Nat) (hi : i < rds.length) :
    ∀ (jr n k : Nat) (st : ScanState), jr < n →
      (∀ d, d < jr → ∀ l, l < rds.length →
        (check_resource_status (env (k + d) l)).1 = false) →
      (∀ l, l < i → (check_resource_status (env (k + jr) l)).1 = false) →
      (check_resource_status (env (k + jr) i)).1 = true →
      (monitorLoop env rds rt t n k st).ready = true ∧
      (monitorLoop env rds rt t n k st).ticks = k + jr + 1 ∧
      (monitorLoop env rds rt t n k st).queries =
        st.queries + jr * rds.length + i + 1 := by
  intro jr
  induction jr with
  | zero =>
    intro n k st hn hprev hrow hready
    obtain ⟨m, rfl⟩ : ∃ m, n = m + 1 := ⟨n - 1, by omega⟩
    obtain ⟨st2, hs, hq⟩ := scanRds_ready_at (env k) rds 0 i st hi
      (by intro j hj; simpa using hrow j hj) (by simpa using hready)
    rw [monitorLoop_succ_ready env rds rt t m k st st2 _ hs]
    refine ⟨rfl, rfl, ?_⟩
    change st2.queries = _
    rw [hq]
    omega
  | succ j ih =>
    intro n k st hn hprev hrow hready
    obtain ⟨m, rfl⟩ : ∃ m, n = m + 1 := ⟨n - 1, by omega⟩
    have hrow0 : ∀ l, l < rds.length →
        (check_resource_status (env k l)).1 = false := by
      intro l hl
      simpa using hprev 0 (Nat.succ_pos j) l hl
    rw [monitorLoop_succ_notReady env rds rt t m k st hrow0]
    have hprev2 : ∀ d, d < j → ∀ l, l < rds.length →
        (check_resource_status (env (k + 1 + d) l)).1 = false := by
      intro d hd l hl
      have hx := hprev (d + 1) (by omega) l hl
      rw [show k + (d + 1) = k + 1 + d by omega] at hx
      exact hx
    have hrow2 : ∀ l, l < i →
        (check_resource_status (env (k + 1 + j) l)).1 = false := by
      intro l hl
      have hx := hrow l hl
      rw [show k + (j + 1) = k + 1 + j by omega] at hx
      exact hx
    have hready2 : (check_resource_status (env (k + 1 + j) i)).1 = true := by
      rw [show k + 1 + j = k + (j + 1) by omega]
      exact hready
    obtain ⟨r1, r2, r3⟩ := ih m (k + 1)
      (provisioningStep (scanNR (env k) 0 rds st) k) (by omega) hprev2 hrow2
      hready2
    refine ⟨r1, ?_, ?_⟩
    · rw [r2]; omega
    · rw [r3, provisioningStep_queries, scanNR_queries]
      ring

/-- C10: with several queryable sub-resources, the poll returns ready as
soon as one sub-resource reports a Ready condition with status `True`,
without querying the remaining sub-resources on that tick and without
requiring the others to be ready. -/
theorem poll_ready_early_exit (f rt : String) (t : Nat)
    (rds : List ResourceRef) (env : MonitorEnv) (i k : Nat)
    (hmulti : 1 < rds.length) (hi : i < rds.length) (hk : 30 * k < t)
    (hprev : ∀ d, d < k → ∀ l, l < rds.length →
      (check_resource_status (env d l)).1 = false)
    (hrow : ∀ l, l < i → (check_resource_status (env k l)).1 = false)
    (hready : ∃ conds c, env k i = GetResult.success conds ∧
      conds.find? (fun x => x.ctype == "Ready") = some c ∧
      c.status = "True") :
    (monitorPoll f rt t rds env).ready = true ∧
    (monitorPoll f rt t rds env).ticks = k + 1 ∧
    (monitorPoll f rt t rds env).queries = k * rds.length + i + 1 := by
  have hrt : (check_resource_status (env k i)).1 = true := by
    obtain ⟨conds, c, he, hf, hs⟩ := hready
    rw [he]
    simp only [check_resource_status]
    rw [hf]
    simp [hs]
  have hempty : rds.isEmpty = false := by
    cases rds with
    | nil => simp at hmulti
    | cons a l => rfl
  unfold monitorPoll
  simp only [hempty, Bool.false_eq_true, if_false]
  obtain ⟨r1, r2, r3⟩ := monitorLoop_ready_at env rds rt t i hi k (numTicks t) 0
    { lastStatus := "", log := [], queries := 0 }
    ((numTicks_spec t k).mpr hk)
    (by intro d hd l hl; simpa using hprev d hd l hl)
    (by intro l hl; simpa using hrow l hl)
    (by simpa using hrt)
  exact ⟨r1, by rw [r2]; omega, by rw [r3]; simp⟩

/-- Witness for C10: three sub-resources, the middle one reporting
Ready/True on tick 1; the poll succeeds after 2 ticks and 5 status
queries (3 on the first tick, 2 on the second — the third sub-resource
is not queried on the final tick). -/
theorem poll_ready_early_exit_witness :
    (monitorPoll "identity.yaml" "identity" 300 [rdAlpha, rdBeta, rdGamma]
      envReadyAt11).ready = true ∧
    (monitorPoll "identity.yaml" "identity" 300 [rdAlpha, rdBeta, rdGamma]
      envReadyAt11).ticks = 2 ∧
    (monitorPoll "identity.yaml" "identity" 300 [rdAlpha, rdBeta, rdGamma]
      envReadyAt11).queries = 5 := by
  have h := poll_ready_early_exit "identity.yaml" "identity" 300
    [rdAlpha, rdBeta, rdGamma] envReadyAt11 1 1 (by decide) (by decide)
    (by decide)
    (by
      intro d hd l hl
      have hd0 : d = 0 := by omega
      subst hd0
      rfl)
    (by
      intro l hl
      have hl0 : l = 0 := by omega
      subst hl0
      rfl)
    ⟨[{ ctype := "Ready", status := "True", message := "Provisioning succeeded" }],
      { ctype := "Ready", status := "True", message := "Provisioning succeeded" },
      by decide, by decide, rfl⟩
  exact ⟨h.1, by rw [h.2.1], by rw [h.2.2]; decide⟩

end ASODeploy

namespace ASODeploy

/-- The heartbeat event never matches a status observation, so it leaves
the count of any given observation unchanged. -/
theorem provisioningStep_statusObs_count (st : ScanState) (k : Nat)
    (s : String) :
    ((provisioningStep st k).log.countP
      (fun e => decide (e = MEvent.statusObs s))) =
    st.log.countP (fun e => decide (e = MEvent.statusObs s)) := by
  unfold provisioningStep
  split
  · simp [List.countP_append, List.countP_cons]
  · rfl

/-- With a single sub-resource whose status query always yields the same
not-ready message, each loop iteration emits the corresponding
observation at most on the transition into that message: the count grows
only if `last_status` differs from it, and then by at most one. -/
theorem monitorLoop_single_debounce (env : MonitorEnv) (rd : ResourceRef)
    (rt : String) (t : Nat) (m : String)
    (h : ∀ k, check_resource_status (env k 0) = (false, m)) :
    ∀ (n k : Nat) (st : ScanState),
      ((monitorLoop env [rd] rt t n k st).log.countP
        (fun e => decide (e = MEvent.statusObs (fmtStatus rd m)))) ≤
      st.log.countP (fun e => decide (e = MEvent.statusObs (fmtStatus rd m)))
        + (if st.lastStatus = fmtStatus rd m then 0 else 1) := by
  intro n
  induction n with
  | zero =>
    intro k st
    show ((st.log ++ [MEvent.timeoutMsg rt t]).countP _) ≤ _
    rw [List.countP_append]
    simp
  | succ nn ih =>
    intro k st
    have hrow : ∀ j, j < ([rd] : List ResourceRef).length →
        (check_resource_status (env k j)).1 = false := by
      intro j hj
      have hj0 : j = 0 := by simpa using hj
      subst hj0
      rw [h k]
    rw [monitorLoop_succ_notReady env [rd] rt t nn k st hrow]
    have hNR : scanNR (env k) 0 [rd] st =
        debounceStep { st with queries := st.queries + 1 } (fmtStatus rd m) := by
      rw [scanNR_cons, h k]
      rfl
    rw [hNR]
    have hb := ih (k + 1)
      (provisioningStep
        (debounceStep { st with queries := st.queries + 1 } (fmtStatus rd m)) k)
    refine hb.trans ?_
    rw [provisioningStep_statusObs_count, provisioningStep_lastStatus,
      debounceStep_lastStatus]
    simp only [if_pos rfl, Nat.add_zero]
    unfold debounceStep
    split
    · rename_i hne
      have hne2 : ¬st.lastStatus = fmtStatus rd m := by
        simpa [eq_comm] using hne
      rw [if_neg hne2]
      simp [List.countP_append]
    · rename_i heq
      have heq2 : st.lastStatus = fmtStatus rd m := by
        simpa [eq_comm] using heq
      rw [if_pos heq2]
      simp

/-- Amended C7: for a descriptor with a single queryable sub-resource
whose status message never changes, the whole poll emits at most one
observation of that message, whatever the timeout budget. -/
theorem poll_debounce_single (f rt : String) (t : Nat) (rd : ResourceRef)
    (env : MonitorEnv) (m : String)
    (h : ∀ k, check_resource_status (env k 0) = (false, m)) :
    ((monitorPoll f rt t [rd] env).log.countP
      (fun e => decide (e = MEvent.statusObs (fmtStatus rd m)))) ≤ 1 := by
  have hfmt : ¬("" : String) = fmtStatus rd m := by
    intro hc
    have hlen := congrArg String.length hc
    simp only [fmtStatus, String.length_append] at hlen
    have : ("" : String).length = 0 := rfl
    have h2 : (": " : String).length = 2 := rfl
    omega
  have hb := monitorLoop_single_debounce env rd rt t m h (numTicks t) 0
    { lastStatus := "", log := [], queries := 0 }
  unfold monitorPoll
  simp only [List.isEmpty_cons, Bool.false_eq_true, if_false]
  refine hb.trans ?_
  rw [if_neg hfmt]
  simp

/-- Witness for amended C7: one sub-resource reporting the same failure
text on every tick over the 300-second budget emits at most one
observation. -/
theorem poll_debounce_single_witness :
    ((monitorPoll "identity.yaml" "identity" 300 [rdCluster]
      envErrText).log.countP
      (fun e => decide (e = MEvent.statusObs
        (fmtStatus rdCluster "Provisioning failed: unrecoverable error")))) ≤ 1 :=
  poll_debounce_single "identity.yaml" "identity" 300 rdCluster envErrText
    "Provisioning failed: unrecoverable error" (fun _ => rfl)

/-- Counterexample to C7 as stated: with two sub-resources whose
formatted statuses alternate within every tick, the observation for the
first sub-resource — whose own message is identical on both ticks — is
emitted twice, not at most once. -/
theorem poll_debounce_duplicate_cex :
    ((monitorPoll "identity.yaml" "identity" 60 [rdAlpha, rdBeta]
      envNeverReady).log.countP
      (fun e => decide (e = MEvent.statusObs
        "alpha: No Ready condition found"))) = 2 := by decide

end ASODeploy

namespace ASODeploy

/-- Amended C3: when the descriptor yields zero queryable sub-resources
the poll returns plain success immediately — no ticks, no queries, only a
printed warning; the boolean the caller receives carries no flag. -/
theorem poll_degraded_introspection (f rt : String) (t : Nat)
    (env : MonitorEnv) :
    monitorPoll f rt t [] env =
      { ready := true, ticks := 0, queries := 0,
        log := [.warnNoDetails f], lastStatus := "" } := rfl

/-- Counterexample to C3 as stated: a degraded-introspection poll (zero
sub-resources) returns success, and the entire caller-visible outcome of
the run — the result log and the overall flag — is identical to that of a
run whose monitored resource was confirmed ready, so the caller cannot
distinguish the two. -/
theorem poll_degraded_indistinguishable_cex :
    (monitor_with_memory_updates "cluster.yaml" (fun _ => [])
      envNeverReady).ready = true ∧
    runDeployment ["cluster.yaml"] deployEnvDegraded =
      runDeployment ["cluster.yaml"] deployEnvConfirmed := by
  constructor
  · rfl
  · decide

/-- C1: for any resource order and any pattern of apply/monitor
outcomes, the run produces exactly one result entry per resource, in
sequence order, and a failed apply records
`{deployed := false, monitored := false}` while the sequence continues
to the end. -/
theorem run_one_result_per_resource (order : List String) (env : DeployEnv) :
    (runDeployment order env).1.length = order.length ∧
    ∀ i (h : i < order.length),
      ∃ e, (runDeployment order env).1.get? i = some e ∧
        e.resource = order.get ⟨i, h⟩ ∧
        (env.applyOk (order.get ⟨i, h⟩) = false →
          e.deployed = false ∧ e.monitored = false) := by
  constructor
  · simp [runDeployment]
  · intro i h
    refine ⟨deployStep env (order.get ⟨i, h⟩), ?_, ?_, ?_⟩
    · show (order.map (deployStep env)).get? i = _
      rw [List.get?_map, List.get?_eq_get h]
      rfl
    · unfold deployStep deploy_resource_with_memory
      split <;> rfl
    · intro happly
      unfold deployStep deploy_resource_with_memory
      rw [happly]
      exact ⟨rfl, rfl⟩

/-- Witness for C1 at the spec's scenario: 7 resources with the apply of
the one at position 5 (1-indexed; `federated.yaml`) failing — the result
log has length 7, position 5 records deployed/monitored false, and the
other six entries record `deployed = true`. -/
theorem run_one_result_per_resource_witness :
    (runDeployment resource_order deployEnvPos5Fails).1.length = 7 ∧
    (∃ e, (runDeployment resource_order deployEnvPos5Fails).1.get? 4 = some e ∧
      e.resource = "federated.yaml" ∧ e.deployed = false ∧
      e.monitored = false) ∧
    ((runDeployment resource_order deployEnvPos5Fails).1.countP
      (·.deployed)) = 6 := by
  obtain ⟨hlen, hidx⟩ :=
    run_one_result_per_resource resource_order deployEnvPos5Fails
  obtain ⟨e, he, hres, himp⟩ := hidx 4 (by decide)
  obtain ⟨hdep, hmon⟩ := himp (by decide)
  refine ⟨by rw [hlen]; decide, ⟨e, he, ?_, hdep, hmon⟩, by decide⟩
  rw [hres]
  decide

/-- C9: the overall flag returned by the run is true iff every
resource's apply succeeded; monitoring outcomes never enter the verdict
(the environment's status queries are universally quantified and absent
from the right-hand side). -/
theorem run_overall_iff_all_applies (order : List String) (env : DeployEnv) :
    (runDeployment order env).2 = true ↔
      ∀ f ∈ order, env.applyOk f = true := by
  show (((order.map (deployStep env)).countP (·.deployed)) == order.length)
      = true ↔ _
  rw [beq_iff_eq, List.countP_map]
  have hcong : ∀ f ∈ order,
      (((fun e => e.deployed) ∘ deployStep env) f = true ↔
        env.applyOk f = true) := by
    intro f _
    have hd : (deployStep env f).deployed = env.applyOk f := by
      unfold deployStep deploy_resource_with_memory
      split
      · rename_i hc
        exact hc.symm
      · rename_i hc
        exact ((Bool.not_eq_true _).mp hc).symm
    show (deployStep env f).deployed = true ↔ _
    rw [hd]
  rw [List.countP_congr hcong]
  constructor
  · intro hc f hf
    exact List.countP_eq_length.mp hc f hf
  · intro hall
    exact List.countP_eq_length.mpr hall

end ASODeploy

/-! The certificate-issuance poll and the aggregators. -/

namespace CertManager

/-- Iteration `k` of the certificate poll runs iff `10 * k < timeout`,
i.e. iff `k < certTicks timeout`. -/
theorem certTicks_spec (timeout k : Nat) :
    k < certTicks timeout ↔ 10 * k < timeout := by
  unfold certTicks
  rw [Nat.lt_iff_add_one_le, Nat.le_div_iff_mul_le (by norm_num : 0 < 10)]
  omega

/-- If ticks before `k0 + j` are neither ready nor in error and tick
`k0 + j` is not ready but carries the `Error` marker, the poll loop
breaks there and returns failure after `j + 1` iterations. -/
theorem certPollLoop_err (env : Nat → CertTick) :
    ∀ (j n k0 : Nat), j < n →
      (∀ d, d < j → certReadyTick (env (k0 + d)) = false ∧
        certErrTick (env (k0 + d)) = false) →
      certReadyTick (env (k0 + j)) = false →
      certErrTick (env (k0 + j)) = true →
      certPollLoop env n k0 = (false, k0 + j + 1) := by
  intro j
  induction j with
  | zero =>
    intro n k0 hn hprev hr he
    obtain ⟨m, rfl⟩ : ∃ m, n = m + 1 := ⟨n - 1, by omega⟩
    have hr0 : certReadyTick (env k0) = false := by simpa using hr
    have he0 : certErrTick (env k0) = true := by simpa using he
    simp only [certPollLoop, hr0, he0]
    simp
  | succ jj ih =>
    intro n k0 hn hprev hr he
    obtain ⟨m, rfl⟩ : ∃ m, n = m + 1 := ⟨n - 1, by omega⟩
    obtain ⟨hq0, he0⟩ := hprev 0 (Nat.succ_pos jj)
    have hq0a : certReadyTick (env k0) = false := by simpa using hq0
    have he0a : certErrTick (env k0) = false := by simpa using he0
    simp only [certPollLoop, hq0a, he0a, Bool.false_eq_true, if_false]
    have hprev2 : ∀ d, d < jj → certReadyTick (env (k0 + 1 + d)) = false ∧
        certErrTick (env (k0 + 1 + d)) = false := by
      intro d hd
      have hx := hprev (d + 1) (by omega)
      rw [show k0 + (d + 1) = k0 + 1 + d by omega] at hx
      exact hx
    have hr2 : certReadyTick (env (k0 + 1 + jj)) = false := by
      rw [show k0 + 1 + jj = k0 + (jj + 1) by omega]
      exact hr
    have he2 : certErrTick (env (k0 + 1 + jj)) = true := by
      rw [show k0 + 1 + jj = k0 + (jj + 1) by omega]
      exact he
    rw [ih m (k0 + 1) (by omega) hprev2 hr2 he2]
    congr 1
    omega

/-- Amended C4, certificate-poll half: an explicit `Error` marker in the
describe output on tick `k` (the certificate never having been ready)
makes `test_certificate_issuance` stop polling on that tick and return
failure strictly before the full timeout budget of `certTicks timeout`
iterations elapses. -/
theorem cert_poll_error_stops_early (timeout : Nat) (env : Nat → CertTick)
    (k : Nat) (hk : 10 * (k + 1) < timeout)
    (hprev : ∀ d, d < k → certReadyTick (env d) = false ∧
      certErrTick (env d) = false)
    (hr : certReadyTick (env k) = false) (he : certErrTick (env k) = true) :
    test_certificate_issuance timeout env = (false, k + 1) ∧
    k + 1 < certTicks timeout := by
  have h2 : k + 1 < certTicks timeout := (certTicks_spec timeout (k + 1)).mpr hk
  refine ⟨?_, h2⟩
  unfold test_certificate_issuance
  have hmain := certPollLoop_err env k (certTicks timeout) 0 (by omega)
    (by intro d hd; simpa using hprev d hd) (by simpa using hr)
    (by simpa using he)
  simpa using hmain

/-- Witness for amended C4: with a 300-second budget and the `Error`
marker surfacing on tick 2, the poll returns failure after 3 of the 30
budgeted iterations. -/
theorem cert_poll_error_stops_early_witness :
    test_certificate_issuance 300 certEnvErrAt2 = (false, 3) ∧
    3 < certTicks 300 := by
  have h := cert_poll_error_stops_early 300 certEnvErrAt2 2 (by decide)
    (by
      intro d hd
      have : d = 0 ∨ d = 1 := by omega
      rcases this with h0 | h1
      · subst h0; exact ⟨by decide, by decide⟩
      · subst h1; exact ⟨by decide, by decide⟩)
    (by decide) (by decide)
  exact h

end CertManager

namespace ASODeploy

/-- Counterexample to C4 as stated: every status query of this poll
surfaces descriptive text signalling unrecoverable failure
(`Provisioning failed: unrecoverable error`), yet the ASO monitoring
loop has no terminal-error detection: it keeps polling for the full
budget of `numTicks 300 = 10` ticks instead of stopping early. -/
theorem aso_monitor_no_error_stop_cex :
    (monitorPoll "identity.yaml" "identity" 300 [rdCluster] envErrText).ready
      = false ∧
    (monitorPoll "identity.yaml" "identity" 300 [rdCluster] envErrText).ticks
      = numTicks 300 ∧
    (monitorPoll "identity.yaml" "identity" 300 [rdCluster] envErrText).queries
      = 10 := by decide

end ASODeploy

/-- Counterexample to C5 as stated: the Unanimous aggregator of the
validator (`generate_summary`) returns `overall = true` on an empty
outcome sequence (`0 == 0`), not false. -/
theorem unanimous_empty_overall_true_cex :
    CertManager.generate_summary [] = true := by decide

/-- Amended C5: with `total == 0` the Threshold-with-veto aggregator
(the istio report) returns the `FAIL` verdict without dividing by zero,
whatever findings are present; the Unanimous aggregator (the cert-manager
summary) instead returns `true` on an empty outcome sequence. -/
theorem aggregate_zero_total (findings : List IstioSuite.Finding) :
    IstioSuite.overall_status [] findings = "FAIL" ∧
    CertManager.generate_summary [] = true := by
  constructor
  · unfold IstioSuite.overall_status
    rw [if_neg]
    rintro ⟨h80, _⟩
    norm_num [IstioSuite.pass_rate] at h80
  · decide

/-- C6: with at least one outcome, the Threshold-with-veto verdict is
`PASS` iff the passed fraction reaches 4/5 and no finding carries the
disqualifying `CRITICAL` severity. -/
theorem threshold_veto_iff (results : List IstioSuite.TestResult)
    (findings : List IstioSuite.Finding) (h : 0 < results.length) :
    (IstioSuite.overall_status results findings = "PASS" ↔
      ((results.countP (·.passed) : ℚ) / (results.length : ℚ) ≥ 4/5 ∧
        (IstioSuite.critical_findings findings).length = 0)) := by
  have hrate : IstioSuite.pass_rate results =
      ((results.countP (·.passed) : ℚ) / (results.length : ℚ)) * 100 := by
    unfold IstioSuite.pass_rate
    rw [if_pos h]
  unfold IstioSuite.overall_status
  rw [hrate]
  constructor
  · intro hp
    by_cases hcond : ((results.countP (·.passed) : ℚ) / (results.length : ℚ))
        * 100 ≥ 80 ∧ (IstioSuite.critical_findings findings).length = 0
    · exact ⟨by linarith [hcond.1], hcond.2⟩
    · rw [if_neg hcond] at hp
      exact absurd hp (by decide)
  · rintro ⟨h45, hlen⟩
    rw [if_pos ⟨by linarith, hlen⟩]

/-- Witness for C6 at the spec's scenario: 5 outcomes with 4 passed and
no disqualifying finding give `PASS`; the same counts with one CRITICAL
finding give `FAIL`. -/
theorem threshold_veto_iff_witness :
    IstioSuite.overall_status IstioSuite.results5 [] = "PASS" ∧
    IstioSuite.overall_status IstioSuite.results5 [IstioSuite.findingCrit]
      = "FAIL" := by
  constructor
  · refine (threshold_veto_iff IstioSuite.results5 [] (by decide)).mpr ⟨?_, rfl⟩
    have hc : IstioSuite.results5.countP (·.passed) = 4 := by decide
    have hl : IstioSuite.results5.length = 5 := by decide
    rw [hc, hl]
    norm_num
  · unfold IstioSuite.overall_status
    rw [if_neg]
    rintro ⟨_, hlen⟩
    simp [IstioSuite.critical_findings, IstioSuite.findingCrit] at hlen

/-- C8 at its failing input: with a mismatched service-account client
id the workload-identity check fails (returns `False`), but its failure
path appends nothing to the results list, so the summary sees only the
four passing checks and the process exits 0 — the failure is dropped
from the final verdict. -/
theorem validator_drops_failed_check :
    (CertManager.check_workload_identity CertManager.certEnvBadClientId).1
      = false ∧
    CertManager.run_all_validations CertManager.certEnvBadClientId =
      [("CRDs Installed", true), ("Cert-Manager Pods", true),
       ("ClusterIssuers Ready", true), ("Azure DNS Permissions", true)] ∧
    CertManager.generate_summary
      (CertManager.run_all_validations CertManager.certEnvBadClientId)
      = true ∧
    CertManager.validatorExitCode CertManager.certEnvBadClientId = 0 := by
  decide
